import Mathlib

/-!
Verification of the neura-call-center backend against its specification.

Each definition below is a shallow embedding of one Python function or
ORM model of the repository, translated clause by clause from the source
file named in its doc comment.  Python dictionaries become association
lists over a small dynamic value type `PyVal`; `datetime` values become
integers (epoch seconds); exceptions become `Except String`; database
tables become lists of row structures.
-/

namespace NeuraCC

/-- A dynamic (JSON-like) Python value, as stored in the dictionaries the
agent tools return. -/
inductive PyVal where
  | str (s : String)
  | int (n : Int)
  | rat (q : Rat)
  | bool (b : Bool)
  | list (xs : List PyVal)
  | dict (xs : List (String × PyVal))
  | pynone

mutual

/-- Structural equality test on dynamic values (Python == on these shapes). -/
def PyVal.beq : PyVal → PyVal → Bool
  | .str a, .str b => a == b
  | .int a, .int b => a == b
  | .rat a, .rat b => a == b
  | .bool a, .bool b => a == b
  | .list as, .list bs => PyVal.beqList as bs
  | .dict as, .dict bs => PyVal.beqEntries as bs
  | .pynone, .pynone => true
  | _, _ => false

/-- Elementwise equality of two lists of dynamic values. -/
def PyVal.beqList : List PyVal → List PyVal → Bool
  | [], [] => true
  | a :: as, b :: bs => PyVal.beq a b && PyVal.beqList as bs
  | _, _ => false

/-- Keywise equality of two dynamic dicts (as association lists). -/
def PyVal.beqEntries : List (String × PyVal) → List (String × PyVal) → Bool
  | [], [] => true
  | a :: as, b :: bs => a.1 == b.1 && PyVal.beq a.2 b.2 && PyVal.beqEntries as bs
  | _, _ => false

end

instance : BEq PyVal := ⟨PyVal.beq⟩

/-- A Python dict with string keys, as the agent tools return. -/
abbrev PyDict := List (String × PyVal)

/-- Whether a dict carries the given key. -/
def hasKey (d : PyDict) (k : String) : Bool :=
  d.any (fun p => p.1 == k)

/-- The value stored under a key, if any. -/
def lookupKey (d : PyDict) (k : String) : Option PyVal :=
  match d with
  | [] => Option.none
  | p :: rest => if p.1 == k then some p.2 else lookupKey rest k

/-- The APIKey ORM model of src/apps/models/api_key.py: one row of the
api_keys table.  datetime columns are embedded as epoch seconds (Int). -/
structure APIKeyRec where
  id : Int
  key : String
  name : String
  description : Option String := Option.none
  owner : String
  owner_email : Option String := Option.none
  is_active : Bool := true
  rate_limit_per_minute : Option Int := Option.none
  rate_limit_per_hour : Option Int := Option.none
  rate_limit_per_day : Option Int := Option.none
  permissions : Option String := Option.none
  created_at : Int := 0
  updated_at : Int := 0
  expires_at : Option Int := Option.none
  last_used_at : Option Int := Option.none
  deriving DecidableEq

/-- APIKey.is_valid of src/apps/models/api_key.py, with the current time
passed explicitly.  The source returns False when is_active is false, then
False when expires_at is set and now is strictly past it (a datetime object
is always truthy in Python, so the guard tests presence), else True. -/
def APIKeyRec.is_valid (k : APIKeyRec) (now : Int) : Bool :=
  if k.is_active = false then false
  else
    match k.expires_at with
    | some e => if now > e then false else true
    | Option.none => true

/-- Claim C4: for every APIKey record, is_valid returns true iff is_active
is true and (expires_at is absent or the current time is at most
expires_at); hence an inactive key is invalid regardless of expiry and an
active key whose expiry lies strictly in the past is invalid. -/
theorem C4_api_key_validity (k : APIKeyRec) (now : Int) :
    (k.is_valid now = true ↔
      k.is_active = true ∧
        (k.expires_at = Option.none ∨ ∃ e, k.expires_at = some e ∧ now ≤ e)) ∧
    (k.is_active = false → k.is_valid now = false) ∧
    (∀ e, k.is_active = true → k.expires_at = some e → e < now →
      k.is_valid now = false) := by
  unfold APIKeyRec.is_valid
  rcases h : k.expires_at with _ | e <;>
    cases ha : k.is_active <;>
      simp [h, ha]

/-- Witness for C4 at a concrete inactive key: is_valid is false. -/
theorem C4_api_key_validity_witness :
    APIKeyRec.is_valid
      { id := 1, key := "sek-1", name := "acme", owner := "ops",
        is_active := false } 50 = false :=
  (C4_api_key_validity
    { id := 1, key := "sek-1", name := "acme", owner := "ops",
      is_active := false } 50).2.1 rfl

/-- The call status enumeration, declared identically in
src/apps/models/call.py and src/apps/providers/telephony/base.py. -/
inductive CallStatus where
  | initiated
  | ringing
  | in_progress
  | completed
  | failed
  | no_answer
  | busy
  | canceled
  deriving DecidableEq

/-- The status_map dict literal inside
TwilioTelephonyProvider.map_twilio_status
(src/apps/providers/telephony/twilio.py, lines 71-80). -/
def status_map : List (String × CallStatus) :=
  [("queued", CallStatus.initiated),
   ("ringing", CallStatus.ringing),
   ("in-progress", CallStatus.in_progress),
   ("completed", CallStatus.completed),
   ("failed", CallStatus.failed),
   ("busy", CallStatus.busy),
   ("no-answer", CallStatus.no_answer),
   ("canceled", CallStatus.canceled)]

/-- TwilioTelephonyProvider.map_twilio_status of
src/apps/providers/telephony/twilio.py: dict get with default
CallStatus.FAILED. -/
def map_twilio_status (twilio_status : String) : CallStatus :=
  (status_map.lookup twilio_status).getD CallStatus.failed

/-- Claim C5: the Twilio status-mapping function realises exactly the
table queued to initiated, ringing to ringing, in-progress to in_progress,
completed to completed, failed to failed, busy to busy, no-answer to
no_answer, canceled to canceled, and every string outside the table maps
to failed. -/
theorem C5_twilio_status_table :
    map_twilio_status "queued" = CallStatus.initiated ∧
    map_twilio_status "ringing" = CallStatus.ringing ∧
    map_twilio_status "in-progress" = CallStatus.in_progress ∧
    map_twilio_status "completed" = CallStatus.completed ∧
    map_twilio_status "failed" = CallStatus.failed ∧
    map_twilio_status "busy" = CallStatus.busy ∧
    map_twilio_status "no-answer" = CallStatus.no_answer ∧
    map_twilio_status "canceled" = CallStatus.canceled ∧
    (∀ s, s ∉ ["queued", "ringing", "in-progress", "completed", "failed",
               "busy", "no-answer", "canceled"] →
      map_twilio_status s = CallStatus.failed) := by
  refine ⟨rfl, rfl, rfl, rfl, rfl, rfl, rfl, rfl, ?_⟩
  intro s hs
  simp only [List.mem_cons, List.not_mem_nil, or_false, not_or] at hs
  obtain ⟨h1, h2, h3, h4, h5, h6, h7, h8⟩ := hs
  have e1 : (s == "queued") = false := beq_eq_false_iff_ne.mpr h1
  have e2 : (s == "ringing") = false := beq_eq_false_iff_ne.mpr h2
  have e3 : (s == "in-progress") = false := beq_eq_false_iff_ne.mpr h3
  have e4 : (s == "completed") = false := beq_eq_false_iff_ne.mpr h4
  have e5 : (s == "failed") = false := beq_eq_false_iff_ne.mpr h5
  have e6 : (s == "busy") = false := beq_eq_false_iff_ne.mpr h6
  have e7 : (s == "no-answer") = false := beq_eq_false_iff_ne.mpr h7
  have e8 : (s == "canceled") = false := beq_eq_false_iff_ne.mpr h8
  simp [map_twilio_status, status_map, List.lookup, e1, e2, e3, e4, e5, e6, e7, e8]

/-- Witness for C5 at the concrete unrecognized vendor status weird: it
maps to failed. -/
theorem C5_twilio_status_table_witness :
    map_twilio_status "weird" = CallStatus.failed :=
  C5_twilio_status_table.2.2.2.2.2.2.2.2 "weird" (by decide)

/-- One LangChain message as seen by CallCenterAgent.should_continue: the
tool_calls field is absent (no such attribute on the object) or a list.
tool_calls = Option.none embeds hasattr(msg, "tool_calls") being false. -/
structure AgentMessage where
  content : String
  tool_calls : Option (List PyVal)

/-- The CallCenterState dict of src/apps/agents/call_agent.py: message
history plus the optional context fields. -/
structure CallCenterState where
  messages : List AgentMessage
  customer_id : Option String := Option.none
  call_id : Option String := Option.none
  intent : Option String := Option.none
  sentiment : Option String := Option.none

/-- CallCenterAgent.should_continue of src/apps/agents/call_agent.py
(lines 180-197): reads the last message of the history (messages[-1], so
the history must be non-empty) and returns "continue" when it has a
tool_calls attribute holding a non-empty (truthy) list, else "end". -/
def should_continue (state : CallCenterState) (h : state.messages ≠ []) : String :=
  let last_message := state.messages.getLast h
  match last_message.tool_calls with
  | some tcs => if tcs.isEmpty then "end" else "continue"
  | Option.none => "end"

/-- Claim C6: when the most recent message carries a non-empty tool-call
list the transition function returns "continue"; when it has no tool-call
attribute or an empty list it returns "end". -/
theorem C6_agent_transition (state : CallCenterState) (h : state.messages ≠ []) :
    (∀ tcs, (state.messages.getLast h).tool_calls = some tcs → tcs ≠ [] →
      should_continue state h = "continue") ∧
    ((state.messages.getLast h).tool_calls = Option.none ∨
        (state.messages.getLast h).tool_calls = some [] →
      should_continue state h = "end") := by
  unfold should_continue
  constructor
  · intro tcs htcs hne
    simp [htcs, List.isEmpty_iff, hne]
  · rintro (hnone | hempty)
    · simp [hnone]
    · simp [hempty]

/-- Witness for C6 at a concrete state whose last message requests one
tool call: the transition function returns "continue". -/
theorem C6_agent_transition_witness :
    should_continue
      { messages := [{ content := "hi", tool_calls := some [PyVal.str "get_customer_info"] }] }
      (List.cons_ne_nil _ _) = "continue" :=
  (C6_agent_transition
    { messages := [{ content := "hi", tool_calls := some [PyVal.str "get_customer_info"] }] }
    (List.cons_ne_nil _ _)).1 [PyVal.str "get_customer_info"] rfl (by simp)

/-- The three component health states of src/apps/api/routers/health.py. -/
inductive HealthStatus where
  | healthy
  | degraded
  | unhealthy
  deriving DecidableEq

/-- The ComponentStatus response model of src/apps/api/routers/health.py
(latency embedded as an exact rational count of milliseconds). -/
structure ComponentStatus where
  name : String
  status : HealthStatus
  latency_ms : Option Rat := Option.none
  message : Option String := Option.none

/-- detailed_health_check of src/apps/api/routers/health.py (lines
74-136), with the outcome of the two probes and the measured latencies
passed as inputs: returns the overall status and the component list.  The
source appends a database component (healthy on success, else unhealthy,
which also sets the overall status to unhealthy), then, when the cache is
enabled, a cache component (healthy on ping success; degraded on failure,
lowering the overall status to degraded only when it is still healthy),
and when the cache is disabled a healthy cache component. -/
def detailed_health_check (db_ok : Bool) (db_latency : Rat) (db_err : String)
    (cache_enabled cache_ok : Bool) (cache_latency : Rat) (cache_err : String) :
    HealthStatus × List ComponentStatus :=
  let components : List ComponentStatus := []
  let overall_status := HealthStatus.healthy
  let (components, overall_status) :=
    if db_ok then
      (components ++ [{ name := "database", status := HealthStatus.healthy,
                        latency_ms := some db_latency,
                        message := some "PostgreSQL connection OK" }],
       overall_status)
    else
      (components ++ [{ name := "database", status := HealthStatus.unhealthy,
                        message := some db_err }],
       HealthStatus.unhealthy)
  let (components, overall_status) :=
    if cache_enabled then
      if cache_ok then
        (components ++ [{ name := "cache", status := HealthStatus.healthy,
                          latency_ms := some cache_latency,
                          message := some "Redis/Valkey connection OK" }],
         overall_status)
      else
        (components ++ [{ name := "cache", status := HealthStatus.degraded,
                          message := some cache_err }],
         if overall_status = HealthStatus.healthy then HealthStatus.degraded
         else overall_status)
    else
      (components ++ [{ name := "cache", status := HealthStatus.healthy,
                        message := some "Cache disabled" }],
       overall_status)
  (overall_status, components)

/-- Severity rank of a component status: unhealthy outranks degraded
outranks healthy. -/
def statusRank : HealthStatus → Nat
  | HealthStatus.healthy => 0
  | HealthStatus.degraded => 1
  | HealthStatus.unhealthy => 2

/-- The worst status of a list under the severity order. -/
def worstStatus (l : List HealthStatus) : HealthStatus :=
  l.foldl (fun a b => if statusRank a < statusRank b then b else a)
    HealthStatus.healthy

/-- Claim C7: the aggregate detailed-health status is the worst component
status under unhealthy over degraded over healthy; a database failure
forces unhealthy whatever the cache result; a cache-ping failure with the
database healthy and the cache enabled gives degraded; with the cache
disabled the cache component is healthy and the aggregate is decided by
the database alone. -/
theorem C7_health_aggregation (db_ok cache_enabled cache_ok : Bool)
    (dl cl : Rat) (de ce : String) :
    ((detailed_health_check db_ok dl de cache_enabled cache_ok cl ce).1 =
      worstStatus (((detailed_health_check db_ok dl de cache_enabled cache_ok cl ce).2).map
        ComponentStatus.status)) ∧
    (db_ok = false →
      (detailed_health_check db_ok dl de cache_enabled cache_ok cl ce).1 =
        HealthStatus.unhealthy) ∧
    (db_ok = true → cache_enabled = true → cache_ok = false →
      (detailed_health_check db_ok dl de cache_enabled cache_ok cl ce).1 =
        HealthStatus.degraded) ∧
    (cache_enabled = false →
      ((detailed_health_check db_ok dl de cache_enabled cache_ok cl ce).2).map
          (fun c => (c.name, c.status)) =
        [("database", if db_ok then HealthStatus.healthy else HealthStatus.unhealthy),
         ("cache", HealthStatus.healthy)] ∧
      (detailed_health_check db_ok dl de cache_enabled cache_ok cl ce).1 =
        (if db_ok then HealthStatus.healthy else HealthStatus.unhealthy)) := by
  cases db_ok <;> cases cache_enabled <;> cases cache_ok <;>
    simp [detailed_health_check, worstStatus, statusRank]

/-- Witness for C7: a failing database with a failing enabled cache yields
the aggregate status unhealthy. -/
theorem C7_health_aggregation_witness :
    (detailed_health_check false 0 "connection refused" true false 0 "timeout").1 =
      HealthStatus.unhealthy :=
  (C7_health_aggregation false true false 0 0 "connection refused" "timeout").2.1 rfl

/-- The string value of each member of the str-valued CallStatus enum. -/
def CallStatus.toStr : CallStatus → String
  | CallStatus.initiated => "initiated"
  | CallStatus.ringing => "ringing"
  | CallStatus.in_progress => "in_progress"
  | CallStatus.completed => "completed"
  | CallStatus.failed => "failed"
  | CallStatus.no_answer => "no_answer"
  | CallStatus.busy => "busy"
  | CallStatus.canceled => "canceled"

/-- The Call ORM model of src/apps/models/call.py: one row of the calls
table.  UUID columns are embedded as strings, datetimes as epoch seconds,
the JSON metadata map as a dynamic dict. -/
structure CallRow where
  id : String
  external_id : Option String := Option.none
  phone_number : String
  agent_phone_number : String
  status : CallStatus := CallStatus.initiated
  direction : String
  created_at : Int := 0
  started_at : Option Int := Option.none
  ended_at : Option Int := Option.none
  duration_seconds : Option Int := Option.none
  language : String := "en-US"
  recording_url : Option String := Option.none
  recording_enabled : Bool := true
  provider : String
  call_metadata : List (String × PyVal) := []
  audio_quality_score : Option Rat := Option.none
  latency_ms : Option Int := Option.none
  error_message : Option String := Option.none
  error_code : Option String := Option.none

/-- The mapped attribute names of the Call model class
(src/apps/models/call.py): its columns plus the conversation
relationship.  Note that customer_id is not among them. -/
def CallRow.cols : List String :=
  ["id", "external_id", "phone_number", "agent_phone_number", "status",
   "direction", "created_at", "started_at", "ended_at", "duration_seconds",
   "language", "recording_url", "recording_enabled", "provider",
   "call_metadata", "audio_quality_score", "latency_ms", "error_message",
   "error_code", "conversation"]

/-- A class-attribute reference used to build a where clause on Call, as
in select(Call).where(Call.name == value): referencing a name the model
does not map raises AttributeError before any row is examined. -/
def CallRow.colRef (name : String) : Except String String :=
  if CallRow.cols.contains name then Except.ok name
  else Except.error ("type object Call has no attribute " ++ name)

/-- Equality test of a mapped Call attribute against a string value, as a
where clause applies it to one row (string-rendered columns only; an
unmapped name cannot reach this point because colRef rejects it). -/
def CallRow.strFieldEq (c : CallRow) (name v : String) : Bool :=
  match name with
  | "id" => c.id == v
  | "external_id" => c.external_id == some v
  | "phone_number" => c.phone_number == v
  | "agent_phone_number" => c.agent_phone_number == v
  | "status" => CallStatus.toStr c.status == v
  | "direction" => c.direction == v
  | "language" => c.language == v
  | "recording_url" => c.recording_url == some v
  | "provider" => c.provider == v
  | "error_message" => c.error_message == some v
  | "error_code" => c.error_code == some v
  | _ => false

/-- The Conversation ORM model of src/apps/models/conversation.py.  The
messages relationship holds the Message rows of the conversation; no
claim inspects their payload, so each message is embedded as an opaque
dynamic value. -/
structure ConversationRow where
  id : String
  call_id : String
  created_at : Int := 0
  updated_at : Int := 0
  summary : Option String := Option.none
  sentiment : Option String := Option.none
  satisfaction_score : Option Int := Option.none
  messages : List PyVal := []

/-- The mapped attribute names of the Conversation model
(src/apps/models/conversation.py): its columns plus the call, messages
and claim relationships.  Note that transcript is not among them. -/
def ConversationRow.cols : List String :=
  ["id", "call_id", "created_at", "updated_at", "summary", "sentiment",
   "satisfaction_score", "call", "messages", "claim"]

/-- A class-attribute reference on the Conversation model. -/
def ConversationRow.colRef (name : String) : Except String String :=
  if ConversationRow.cols.contains name then Except.ok name
  else Except.error ("type object Conversation has no attribute " ++ name)

/-- An instance-attribute access on a Conversation row: a name the model
does not map raises AttributeError. -/
def ConversationRow.attrRef (name : String) : Except String String :=
  if ConversationRow.cols.contains name then Except.ok name
  else Except.error ("Conversation object has no attribute " ++ name)

/-- Equality test of a mapped Conversation attribute against a string
value, as a where clause applies it to one row. -/
def ConversationRow.strFieldEq (cv : ConversationRow) (name v : String) : Bool :=
  match name with
  | "id" => cv.id == v
  | "call_id" => cv.call_id == v
  | "summary" => cv.summary == some v
  | "sentiment" => cv.sentiment == some v
  | _ => false

/-- The Claim ORM model of src/apps/models/claim.py: one row of the
claims table. -/
structure ClaimRow where
  id : String
  conversation_id : String
  data : List (String × PyVal) := []
  status : String := "open"
  created_at : Int := 0
  updated_at : Int := 0
  resolved_at : Option Int := Option.none
  reminders : List PyVal := []
  next_action : Option String := Option.none
  next_action_due : Option Int := Option.none

/-- The mapped attribute names of the Claim model
(src/apps/models/claim.py): its columns plus the conversation
relationship.  Note that customer_id, claim_type, description and
priority are not among them. -/
def ClaimRow.cols : List String :=
  ["id", "conversation_id", "data", "status", "created_at", "updated_at",
   "resolved_at", "reminders", "next_action", "next_action_due",
   "conversation"]

/-- A class-attribute reference on the Claim model. -/
def ClaimRow.colRef (name : String) : Except String String :=
  if ClaimRow.cols.contains name then Except.ok name
  else Except.error ("type object Claim has no attribute " ++ name)

/-- Equality test of a mapped Claim attribute against a string value, as
a where clause applies it to one row. -/
def ClaimRow.strFieldEq (cl : ClaimRow) (name v : String) : Bool :=
  match name with
  | "id" => cl.id == v
  | "conversation_id" => cl.conversation_id == v
  | "status" => cl.status == v
  | "next_action" => cl.next_action == some v
  | _ => false

/-- The relational store the tools and endpoints query: one list of rows
per table of src/apps/models. -/
structure DB where
  calls : List CallRow := []
  conversations : List ConversationRow := []
  claims : List ClaimRow := []
  api_keys : List APIKeyRec := []

/-- SQLAlchemy scalar_one_or_none on an executed query result: no row
gives none, one row gives it, several rows raise MultipleResultsFound. -/
def scalar_one_or_none : List α → Except String (Option α)
  | [] => Except.ok Option.none
  | [r] => Except.ok (some r)
  | _ :: _ :: _ =>
      Except.error "Multiple rows were found when one or none was required"

/-- The body of the try block of get_customer_info
(src/apps/agents/tools/database_tools.py, lines 40-62): select Call rows
by customer id, select open or in-progress Claim rows by customer id, and
assemble the result dict.  The first where clause references
Call.customer_id, a name the Call model does not map, so the clause
construction raises before any row is read (and likewise
Claim.customer_id would). -/
def tryGetCustomerInfo (db : DB) (customer_id : String) : Except String PyDict := do
  let c1 ← CallRow.colRef "customer_id"
  let calls := db.calls.filter (fun c => CallRow.strFieldEq c c1 customer_id)
  let c2 ← ClaimRow.colRef "customer_id"
  let _ ← ClaimRow.colRef "status"
  let claims := db.claims.filter (fun cl =>
    ClaimRow.strFieldEq cl c2 customer_id &&
      (cl.status == "open" || cl.status == "in_progress"))
  Except.ok
    [("customer_id", PyVal.str customer_id),
     ("total_calls", PyVal.int calls.length),
     ("recent_calls", PyVal.list ((calls.take 5).map (fun c => PyVal.str c.id))),
     ("active_claims", PyVal.list (claims.map (fun cl => PyVal.str cl.id)))]

/-- The get_customer_info agent tool
(src/apps/agents/tools/database_tools.py): the try body with its except
branch, which converts any exception into an error dict. -/
def get_customer_info (db : DB) (customer_id : String) : PyDict :=
  match tryGetCustomerInfo db customer_id with
  | Except.ok r => r
  | Except.error e =>
      [("error", PyVal.str ("Failed to get customer info: " ++ e)),
       ("customer_id", PyVal.str customer_id)]

/-- The body of the try block of get_call_history
(src/apps/agents/tools/database_tools.py, lines 88-115).  When the call
id is unknown the tool returns a not-found error dict through the normal
path; when a conversation row exists, the access conversation.transcript
raises, because the Conversation model maps no transcript attribute. -/
def tryGetCallHistory (db : DB) (call_id : String) : Except String PyDict := do
  let c1 ← CallRow.colRef "id"
  let call? ← scalar_one_or_none
    (db.calls.filter (fun c => CallRow.strFieldEq c c1 call_id))
  match call? with
  | Option.none =>
      Except.ok [("error", PyVal.str ("Call " ++ call_id ++ " not found"))]
  | some call => do
    let c2 ← ConversationRow.colRef "call_id"
    let conversation ← scalar_one_or_none
      (db.conversations.filter (fun cv => ConversationRow.strFieldEq cv c2 call_id))
    let messages : List PyVal :=
      match conversation with
      | some cv => if cv.messages.isEmpty then [] else cv.messages
      | Option.none => []
    let transcript ← (match conversation with
      | some _ => do
          let _ ← ConversationRow.attrRef "transcript"
          -- not reached: the Conversation model has no transcript attribute
          Except.ok (PyVal.str "")
      | Option.none => Except.ok (PyVal.str ""))
    Except.ok
      [("call_id", PyVal.str call.id),
       ("status", PyVal.str (CallStatus.toStr call.status)),
       ("duration", PyVal.int (call.duration_seconds.getD 0)),
       ("transcript", transcript),
       ("messages", PyVal.list messages)]

/-- The get_call_history agent tool with its except branch. -/
def get_call_history (db : DB) (call_id : String) : PyDict :=
  match tryGetCallHistory db call_id with
  | Except.ok r => r
  | Except.error e =>
      [("error", PyVal.str ("Failed to get call history: " ++ e))]

/-- The SQLAlchemy declarative constructor: a keyword argument whose name
is not a mapped attribute of the model raises TypeError. -/
def declarativeKwargCheck (model : String) (cols kwargs : List String) :
    Except String Unit :=
  match kwargs.find? (fun k => !cols.contains k) with
  | some k => Except.error (k ++ " is an invalid keyword argument for " ++ model)
  | Option.none => Except.ok ()

/-- The body of the try block of create_claim
(src/apps/agents/tools/database_tools.py, lines 142-159): construct a
Claim with the tool fields, add and commit it, and report its generated
id.  The constructor call names customer_id, claim_type, description and
priority, none of which the Claim model maps, so construction raises and
no row is ever added.  new_id stands for the uuid the database layer
would generate on flush. -/
def tryCreateClaim (db : DB)
    (customer_id claim_type description priority new_id : String) :
    Except String (PyDict × DB) := do
  let kwargs : List (String × PyVal) :=
    [("customer_id", PyVal.str customer_id),
     ("claim_type", PyVal.str claim_type),
     ("description", PyVal.str description),
     ("priority", PyVal.str priority),
     ("status", PyVal.str "open")]
  let _ ← declarativeKwargCheck "Claim" ClaimRow.cols (kwargs.map Prod.fst)
  -- not reached: the check above rejects customer_id
  let claim : ClaimRow := { id := new_id, conversation_id := "", status := "open" }
  Except.ok
    ([("claim_id", PyVal.str claim.id),
      ("status", PyVal.str claim.status),
      ("message", PyVal.str ("Claim created successfully with ID " ++ claim.id))],
     { db with claims := db.claims ++ [claim] })

/-- The create_claim agent tool with its except branch (the database is
returned unchanged when construction failed). -/
def create_claim (db : DB)
    (customer_id claim_type description priority new_id : String) :
    PyDict × DB :=
  match tryCreateClaim db customer_id claim_type description priority new_id with
  | Except.ok r => r
  | Except.error e =>
      ([("error", PyVal.str ("Failed to create claim: " ++ e))], db)

/-- One knowledge-base article of the static KNOWLEDGE_BASE dict of
src/apps/agents/tools/crm_tools.py. -/
structure KBArticle where
  title : String
  content : String
  category : String

/-- The KNOWLEDGE_BASE dict of src/apps/agents/tools/crm_tools.py,
reproduced verbatim. -/
def KNOWLEDGE_BASE : List (String × KBArticle) :=
  [("refund_policy",
    { title := "Refund Policy",
      content := "Customers can request a refund within 30 days of purchase. Refunds are processed within 5-7 business days. Items must be in original condition.",
      category := "policy" }),
   ("shipping_info",
    { title := "Shipping Information",
      content := "Standard shipping takes 3-5 business days. Express shipping takes 1-2 business days. Free shipping on orders over $50.",
      category := "shipping" }),
   ("technical_support",
    { title := "Technical Support",
      content := "For technical issues, try restarting the device first. Check for software updates. Contact support if the issue persists.",
      category := "support" }),
   ("warranty_info",
    { title := "Warranty Information",
      content := "All products come with a 1-year manufacturer warranty. Extended warranty available for purchase. Warranty covers manufacturing defects only.",
      category := "warranty" })]

/-- Python substring membership, needle in hay, over characters. -/
def strIn (needle hay : String) : Bool :=
  (List.range (hay.length + 1)).any
    (fun i => needle.toList.isPrefixOf (hay.toList.drop i))

/-- The body of the try block of search_knowledge_base
(src/apps/agents/tools/crm_tools.py, lines 95-118): lowercase the query,
walk the knowledge base in order, skip an article when a truthy category
filter differs from its category, keep it when the lowered query occurs
in its lowered title or content, and return results, count and the
echoed query.  The body cannot raise. -/
def trySearchKnowledgeBase (query : String) (category : Option String) :
    Except String PyDict :=
  let query_lower := query.toLower
  let results := KNOWLEDGE_BASE.foldl
    (fun acc kv =>
      if (match category with
          | some c => !(c == "") && !(kv.2.category == c)
          | Option.none => false) then acc
      else if strIn query_lower kv.2.title.toLower ||
              strIn query_lower kv.2.content.toLower then
        acc ++ [PyVal.dict
          [("id", PyVal.str kv.1),
           ("title", PyVal.str kv.2.title),
           ("content", PyVal.str kv.2.content),
           ("category", PyVal.str kv.2.category)]]
      else acc) []
  Except.ok
    [("results", PyVal.list results),
     ("count", PyVal.int results.length),
     ("query", PyVal.str query)]

/-- The search_knowledge_base agent tool with its except branch. -/
def search_knowledge_base (query : String) (category : Option String) : PyDict :=
  match trySearchKnowledgeBase query category with
  | Except.ok r => r
  | Except.error e =>
      [("error", PyVal.str ("Failed to search knowledge base: " ++ e))]

/-- One product of the static PRODUCT_CATALOG dict of
src/apps/agents/tools/crm_tools.py (prices as exact rationals). -/
structure Product where
  id : String
  name : String
  price : Rat
  category : String
  in_stock : Bool
  description : String

/-- The PRODUCT_CATALOG dict of src/apps/agents/tools/crm_tools.py,
reproduced verbatim. -/
def PRODUCT_CATALOG : List (String × Product) :=
  [("PROD-001",
    { id := "PROD-001", name := "Premium Headphones", price := 19999/100,
      category := "Electronics", in_stock := true,
      description := "High-quality wireless headphones with noise cancellation" }),
   ("PROD-002",
    { id := "PROD-002", name := "Smart Watch", price := 29999/100,
      category := "Electronics", in_stock := true,
      description := "Fitness tracking smartwatch with heart rate monitor" }),
   ("PROD-003",
    { id := "PROD-003", name := "Laptop Stand", price := 4999/100,
      category := "Accessories", in_stock := false,
      description := "Ergonomic aluminum laptop stand" })]

/-- The body of the try block of get_product_info
(src/apps/agents/tools/crm_tools.py, lines 142-151): a catalog lookup; an
unknown id yields an error dict plus the valid ids, through the normal
path.  The body cannot raise. -/
def tryGetProductInfo (product_id : String) : Except String PyDict :=
  match PRODUCT_CATALOG.lookup product_id with
  | Option.none =>
      Except.ok
        [("error", PyVal.str ("Product " ++ product_id ++ " not found")),
         ("available_products",
          PyVal.list (PRODUCT_CATALOG.map (fun p => PyVal.str p.1)))]
  | some p =>
      Except.ok
        [("id", PyVal.str p.id),
         ("name", PyVal.str p.name),
         ("price", PyVal.rat p.price),
         ("category", PyVal.str p.category),
         ("in_stock", PyVal.bool p.in_stock),
         ("description", PyVal.str p.description)]

/-- The get_product_info agent tool with its except branch. -/
def get_product_info (product_id : String) : PyDict :=
  match tryGetProductInfo product_id with
  | Except.ok r => r
  | Except.error e =>
      [("error", PyVal.str ("Failed to get product info: " ++ e))]

/-- Claim C1 (refuted, code bug): for every database state and customer
id, get_customer_info returns the error dict of its exception branch and
never the documented total call count, recent call ids and active claim
ids, because the Call and Claim models map no customer_id attribute and
the first where clause raises. -/
theorem C1_get_customer_info_always_fails (db : DB) (customer_id : String) :
    get_customer_info db customer_id =
      [("error", PyVal.str
          "Failed to get customer info: type object Call has no attribute customer_id"),
       ("customer_id", PyVal.str customer_id)] ∧
    hasKey (get_customer_info db customer_id) "error" = true ∧
    hasKey (get_customer_info db customer_id) "total_calls" = false ∧
    hasKey (get_customer_info db customer_id) "recent_calls" = false ∧
    hasKey (get_customer_info db customer_id) "active_claims" = false :=
  ⟨rfl, rfl, rfl, rfl, rfl⟩

/-- Claim C2: each of the five agent tools is a total map from its inputs
to a result dict (so nothing propagates to the caller), and whenever its
try body fails internally the returned dict carries an error key whose
value describes the failure. -/
theorem C2_tools_surface_errors (db : DB)
    (customer_id call_id claim_type description priority new_id : String)
    (query product_id : String) (category : Option String) :
    (∀ e, tryGetCustomerInfo db customer_id = Except.error e →
      lookupKey (get_customer_info db customer_id) "error" =
        some (PyVal.str ("Failed to get customer info: " ++ e))) ∧
    (∀ e, tryGetCallHistory db call_id = Except.error e →
      lookupKey (get_call_history db call_id) "error" =
        some (PyVal.str ("Failed to get call history: " ++ e))) ∧
    (∀ e, tryCreateClaim db customer_id claim_type description priority new_id =
        Except.error e →
      lookupKey (create_claim db customer_id claim_type description priority new_id).1
          "error" =
        some (PyVal.str ("Failed to create claim: " ++ e))) ∧
    (∀ e, trySearchKnowledgeBase query category = Except.error e →
      lookupKey (search_knowledge_base query category) "error" =
        some (PyVal.str ("Failed to search knowledge base: " ++ e))) ∧
    (∀ e, tryGetProductInfo product_id = Except.error e →
      lookupKey (get_product_info product_id) "error" =
        some (PyVal.str ("Failed to get product info: " ++ e))) := by
  refine ⟨?_, ?_, ?_, ?_, ?_⟩ <;> intro e he
  · unfold get_customer_info
    rw [he]
    simp [lookupKey]
  · unfold get_call_history
    rw [he]
    simp [lookupKey]
  · unfold create_claim
    rw [he]
    simp [lookupKey]
  · unfold search_knowledge_base
    rw [he]
    simp [lookupKey]
  · unfold get_product_info
    rw [he]
    simp [lookupKey]

/-- Witness for C2: the create_claim tool at concrete inputs fails
internally (the Claim constructor rejects customer_id) and surfaces the
failure under the error key. -/
theorem C2_tools_surface_errors_witness :
    lookupKey
      (create_claim { } "CUST-123" "refund" "broken item" "medium" "id-9").1
      "error" =
    some (PyVal.str
      "Failed to create claim: customer_id is an invalid keyword argument for Claim") :=
  (C2_tools_surface_errors { } "CUST-123" "call-1" "refund" "broken item"
      "medium" "id-9" "hi" "PROD-001" Option.none).2.2.1
    "customer_id is an invalid keyword argument for Claim" rfl

/-- The TelephonyProvider selection enum of src/apps/core/config.py
(lines 44-50). -/
inductive TelephonyProviderKind where
  | twilio
  | vonage
  | bandwidth
  | telnyx
  deriving DecidableEq

/-- The string value of each member of the str-valued telephony enum. -/
def TelephonyProviderKind.value : TelephonyProviderKind → String
  | TelephonyProviderKind.twilio => "twilio"
  | TelephonyProviderKind.vonage => "vonage"
  | TelephonyProviderKind.bandwidth => "bandwidth"
  | TelephonyProviderKind.telnyx => "telnyx"

/-- The telephony slice of the Settings object of src/apps/core/config.py:
the configured vendor, default twilio (line 142). -/
structure Settings where
  telephony_provider : TelephonyProviderKind := TelephonyProviderKind.twilio

/-- The CreateCallRequest body model of src/apps/api/routers/calls.py. -/
structure CreateCallRequest where
  phone_number : String
  language : String := "en-US"
  agent_phone_number : Option String := Option.none
  task : Option String := Option.none
  claim_schema : Option (List (List (String × PyVal))) := Option.none

/-- create_call of src/apps/api/routers/calls.py (lines 48-88): persists
a Call with status INITIATED, direction outbound, the request phone
number and language, the placeholder agent number when the request
supplies none (or an empty, falsy one), and the provider written as the
string literal twilio; both placeholders carry a TODO comment saying
they should come from settings.  The settings argument is therefore
never read by the body.  new_id stands for the uuid generated for the
row. -/
def create_call (settings : Settings) (request : CreateCallRequest)
    (db : DB) (new_id : String) : CallRow × DB :=
  let call : CallRow :=
    { id := new_id,
      phone_number := request.phone_number,
      agent_phone_number :=
        (match request.agent_phone_number with
         | some a => if a == "" then "+1234567890" else a
         | Option.none => "+1234567890"),
      status := CallStatus.initiated,
      direction := "outbound",
      language := request.language,
      provider := "twilio" }
  (call, { db with calls := db.calls ++ [call] })

/-- Claim C8 (refuted, code bug): every accepted create-call request is
persisted with status initiated and direction outbound, but the provider
column holds the string literal twilio whatever the settings say: with
the vendor configured to vonage the persisted provider differs from the
configured vendor name. -/
theorem C8_create_call_provider_hardcoded (settings : Settings)
    (request : CreateCallRequest) (db : DB) (new_id : String) :
    ((create_call settings request db new_id).1.status = CallStatus.initiated ∧
     (create_call settings request db new_id).1.direction = "outbound" ∧
     (create_call settings request db new_id).1.provider = "twilio") ∧
    ((create_call { telephony_provider := TelephonyProviderKind.vonage }
        request db new_id).1.provider ≠
      TelephonyProviderKind.value TelephonyProviderKind.vonage) :=
  ⟨⟨rfl, rfl, rfl⟩, show ("twilio" : String) ≠ "vonage" by decide⟩

/-- The outcome of the get_api_key dependency: the validated record, or
an HTTP 401 or 500 response carrying its detail string. -/
inductive AuthOutcome where
  | ok (k : APIKeyRec)
  | http401 (detail : String)
  | http500 (detail : String)
  deriving DecidableEq

/-- get_api_key of src/apps/api/middleware/auth.py (lines 21-92), over
the X-API-Key header value, the api_keys table and the current time,
returning the outcome and the committed table.  An absent (or empty,
falsy) header gives 401; an unknown key gives 401; a known key that
fails the validity predicate gives 401; a known valid key has
last_used_at set to the current time and the change committed, and the
record is returned.  An unexpected error during the query (several rows
for one key) becomes a 500.  The dependency receives no request object,
so it can touch no request-scoped state. -/
def get_api_key (api_key : Option String) (db : List APIKeyRec) (now : Int) :
    AuthOutcome × List APIKeyRec :=
  match api_key with
  | Option.none =>
      (AuthOutcome.http401 "Missing API key. Please provide X-API-Key header.", db)
  | some keyval =>
    if keyval == "" then
      (AuthOutcome.http401 "Missing API key. Please provide X-API-Key header.", db)
    else
      match scalar_one_or_none (db.filter (fun r => r.key == keyval)) with
      | Except.error _ =>
          (AuthOutcome.http500 "Error validating API key", db)
      | Except.ok Option.none =>
          (AuthOutcome.http401 "Invalid API key", db)
      | Except.ok (some api_key_obj) =>
        if api_key_obj.is_valid now = false then
          (AuthOutcome.http401 "API key is expired or inactive", db)
        else
          let updated := { api_key_obj with last_used_at := some now }
          (AuthOutcome.ok updated,
           db.map (fun r => if r.key == keyval then updated else r))

/-- get_identifier of src/apps/api/middleware/rate_limit.py (lines
14-36): the name of the API key found on request-scoped state when one
is there, else the remote address. -/
def get_identifier (state_api_key : Option APIKeyRec) (remote_address : String) :
    String :=
  match state_api_key with
  | some api_key => "apikey:" ++ api_key.name
  | Option.none => "ip:" ++ remote_address

/-- One request through auth and rate-limit identity computation.  A
fresh request carries no api_key attribute on its state; get_api_key
runs (it never receives the request object), and the identity is then
computed from the state.  No statement in the repository ever assigns
request.state.api_key: the only occurrences are the two getattr reads in
rate_limit.py (line 26) and auth.py (line 108), so the attribute is
still absent whenever get_identifier reads it. -/
def handle_request (header : Option String) (db : List APIKeyRec) (now : Int)
    (remote_address : String) : AuthOutcome × List APIKeyRec × String :=
  let state_api_key : Option APIKeyRec := Option.none
  let auth := get_api_key header db now
  (auth.1, auth.2, get_identifier state_api_key remote_address)

/-- A query result accepted by scalar_one_or_none as some x is exactly
the singleton x. -/
theorem scalar_one_or_none_eq_some {α : Type} {l : List α} {x : α}
    (h : scalar_one_or_none l = Except.ok (some x)) : l = [x] := by
  match l with
  | [] => simp [scalar_one_or_none] at h
  | [r] =>
      simp [scalar_one_or_none] at h
      rw [h]
  | a :: b :: t => simp [scalar_one_or_none] at h

/-- A filter returning the singleton x found x in the list, x satisfies
the predicate, and nothing else in the list does. -/
theorem filter_eq_singleton_shape {α : Type} {db : List α} {p : α → Bool} {x : α}
    (h : db.filter p = [x]) :
    x ∈ db ∧ p x = true ∧ ∀ a ∈ db, p a = true → a = x := by
  have hx : x ∈ db.filter p := by
    rw [h]
    exact List.mem_singleton_self x
  have hm := List.mem_filter.mp hx
  refine ⟨hm.1, hm.2, ?_⟩
  intro a ha hpa
  have haf : a ∈ db.filter p := List.mem_filter.mpr ⟨ha, hpa⟩
  rw [h] at haf
  exact List.mem_singleton.mp haf

/-- Shape of a successful authentication: the returned record is a table
record with last_used_at set to the current time, all other records are
kept, and the committed table is the pointwise replacement. -/
theorem get_api_key_ok_shape (header : Option String) (db : List APIKeyRec)
    (now : Int) (k : APIKeyRec)
    (h : (get_api_key header db now).1 = AuthOutcome.ok k) :
    ∃ r, r ∈ db ∧ k = { r with last_used_at := some now } ∧
      (get_api_key header db now).2 =
        db.map (fun q => if q.key == r.key
          then { q with last_used_at := some now } else q) := by
  match header with
  | Option.none => simp [get_api_key] at h
  | some keyval =>
    by_cases h0 : keyval == ""
    · simp [get_api_key, h0] at h
    · rcases hq : scalar_one_or_none (db.filter (fun r => r.key == keyval)) with e | o
      · simp [get_api_key, h0, hq] at h
      · match o with
        | Option.none => simp [get_api_key, h0, hq] at h
        | some api_key_obj =>
          by_cases hv : api_key_obj.is_valid now = false
          · simp [get_api_key, h0, hq, hv] at h
          · have hred : get_api_key (some keyval) db now =
                (AuthOutcome.ok { api_key_obj with last_used_at := some now },
                 db.map (fun r => if r.key == keyval
                   then { api_key_obj with last_used_at := some now } else r)) := by
              simp [get_api_key, h0, hq, hv]
            rw [hred] at h
            simp only [AuthOutcome.ok.injEq] at h
            obtain ⟨hmem, hkey, huniq⟩ :=
              filter_eq_singleton_shape (scalar_one_or_none_eq_some hq)
            have hks : api_key_obj.key = keyval := by
              simpa using hkey
            refine ⟨api_key_obj, hmem, h.symm, ?_⟩
            rw [hred]
            apply List.map_congr_left
            intro q hqmem
            by_cases hqk : (q.key == keyval) = true
            · have hq2 : q = api_key_obj := huniq q hqmem hqk
              subst hq2
              simp [hqk, hks]
            · have hqk2 : (q.key == api_key_obj.key) = false := by
                rw [hks]
                exact Bool.eq_false_iff.mpr hqk
              simp [hqk, hqk2]

/-- Claim C3 is refuted (counterexample): the presented key sek-1 is
known and valid, authentication succeeds and commits last_used_at 100,
yet the rate limiter computes the ip fallback identity rather than
apikey:acme, because nothing ever attaches the record to request-scoped
state. -/
theorem C3_rate_limit_identity_counterexample :
    (handle_request (some "sek-1")
        [{ id := 1, key := "sek-1", name := "acme", owner := "ops" }]
        100 "10.0.0.5").1 =
      AuthOutcome.ok
        { id := 1, key := "sek-1", name := "acme", owner := "ops",
          last_used_at := some 100 } ∧
    (handle_request (some "sek-1")
        [{ id := 1, key := "sek-1", name := "acme", owner := "ops" }]
        100 "10.0.0.5").2.2 = "ip:10.0.0.5" ∧
    (handle_request (some "sek-1")
        [{ id := 1, key := "sek-1", name := "acme", owner := "ops" }]
        100 "10.0.0.5").2.2 ≠ "apikey:acme" :=
  ⟨rfl, rfl, by decide⟩

/-- Claim C3 as amended: whenever the auth dependency succeeds it
returns the presented key's record with last_used_at set to the current
time and commits it to the table, but it never attaches the record to
request-scoped state, so the rate limiter computes the ip fallback
identity for every request, never apikey followed by the key name. -/
theorem C3_amended_auth_state_and_identity (header : Option String)
    (db : List APIKeyRec) (now : Int) (remote_address : String) (k : APIKeyRec) :
    (handle_request header db now remote_address).1 = AuthOutcome.ok k →
      k.last_used_at = some now ∧
      k ∈ (handle_request header db now remote_address).2.1 ∧
      (handle_request header db now remote_address).2.2 =
        "ip:" ++ remote_address := by
  intro h
  have h1 : (get_api_key header db now).1 = AuthOutcome.ok k := h
  obtain ⟨r, hrmem, hkeq, hdb2⟩ := get_api_key_ok_shape header db now k h1
  refine ⟨by rw [hkeq], ?_, rfl⟩
  show k ∈ (get_api_key header db now).2
  rw [hdb2]
  refine List.mem_map.mpr ⟨r, hrmem, ?_⟩
  simp [hkeq]

/-- Witness for the amended C3 at the concrete valid key sek-1: the
returned record carries last_used_at 100, it is committed, and the
identity is the ip fallback. -/
theorem C3_amended_auth_state_and_identity_witness :
    ({ id := 1, key := "sek-1", name := "acme", owner := "ops",
       last_used_at := some 100 } : APIKeyRec).last_used_at = some 100 ∧
    ({ id := 1, key := "sek-1", name := "acme", owner := "ops",
       last_used_at := some 100 } : APIKeyRec) ∈
      (handle_request (some "sek-1")
        [{ id := 1, key := "sek-1", name := "acme", owner := "ops" }]
        100 "203.0.113.9").2.1 ∧
    (handle_request (some "sek-1")
        [{ id := 1, key := "sek-1", name := "acme", owner := "ops" }]
        100 "203.0.113.9").2.2 = "ip:203.0.113.9" :=
  C3_amended_auth_state_and_identity (some "sek-1")
    [{ id := 1, key := "sek-1", name := "acme", owner := "ops" }]
    100 "203.0.113.9"
    { id := 1, key := "sek-1", name := "acme", owner := "ops",
      last_used_at := some 100 } rfl

/-- Claim C9: on every 401 path of the auth dependency the api_keys
table is returned unchanged, and on a successful validation every record
of the committed table is either an untouched record of the old table or
an old record with only last_used_at rewritten to the current time. -/
theorem C9_auth_frame (header : Option String) (db : List APIKeyRec) (now : Int) :
    (∀ d, (get_api_key header db now).1 = AuthOutcome.http401 d →
      (get_api_key header db now).2 = db) ∧
    (∀ k, (get_api_key header db now).1 = AuthOutcome.ok k →
      ∀ r2, r2 ∈ (get_api_key header db now).2 →
        r2 ∈ db ∨ ∃ r1, r1 ∈ db ∧ r2 = { r1 with last_used_at := some now }) := by
  constructor
  · intro d hd
    match header with
    | Option.none => rfl
    | some keyval =>
      by_cases h0 : keyval == ""
      · simp [get_api_key, h0]
      · rcases hq : scalar_one_or_none (db.filter (fun r => r.key == keyval)) with e | o
        · simp [get_api_key, h0, hq] at hd
        · match o with
          | Option.none => simp [get_api_key, h0, hq]
          | some api_key_obj =>
            by_cases hv : api_key_obj.is_valid now = false
            · simp [get_api_key, h0, hq, hv]
            · simp [get_api_key, h0, hq, hv] at hd
  · intro k hk r2 hr2
    obtain ⟨r, hrmem, hkeq, hdb2⟩ := get_api_key_ok_shape header db now k hk
    rw [hdb2] at hr2
    obtain ⟨r1, hr1mem, hr1eq⟩ := List.mem_map.mp hr2
    by_cases hqk : (r1.key == r.key) = true
    · right
      refine ⟨r1, hr1mem, ?_⟩
      rw [← hr1eq]
      simp [hqk]
    · left
      rw [← hr1eq]
      simpa [hqk] using hr1mem

/-- Witness for C9: the 401 on a missing header leaves a concrete
one-key table unchanged. -/
theorem C9_auth_frame_witness :
    (get_api_key Option.none
      [{ id := 1, key := "sek-1", name := "acme", owner := "ops" }] 77).2 =
    [{ id := 1, key := "sek-1", name := "acme", owner := "ops" }] :=
  (C9_auth_frame Option.none
    [{ id := 1, key := "sek-1", name := "acme", owner := "ops" }] 77).1
    "Missing API key. Please provide X-API-Key header." rfl


/-- The row as committed by deactivate_api_key: is_active is assigned
False; the updated_at onupdate hook rewrites updated_at to the commit
time only when an UPDATE statement is actually issued, which SQLAlchemy
does only when the assignment changed the stored value. -/
def deactivatedRow (api_key : APIKeyRec) (now : Int) : APIKeyRec :=
  { api_key with
    is_active := false,
    updated_at := if api_key.is_active then now else api_key.updated_at }

/-- Deactivating a row that is already inactive changes nothing. -/
theorem deactivatedRow_of_inactive (a : APIKeyRec) (n : Int)
    (h : a.is_active = false) : deactivatedRow a n = a := by
  rcases a with ⟨i, ky, nm, ds, ow, oe, ia, q1, q2, q3, pm, ca, ua, ea, la⟩
  have h2 : ia = false := h
  subst h2
  rfl

/-- deactivate_api_key of src/apps/api/routers/api_keys.py (lines
134-157): look the key up by id (404 when absent, an unexpected query
error propagates), assign is_active = False, commit and return the
refreshed record.  The committed row is deactivatedRow. -/
def deactivate_api_key (key_id : Int) (db : List APIKeyRec) (now : Int) :
    Except String (APIKeyRec × List APIKeyRec) :=
  match scalar_one_or_none (db.filter (fun r => r.id == key_id)) with
  | Except.error e => Except.error e
  | Except.ok Option.none => Except.error "API key not found"
  | Except.ok (some api_key) =>
    Except.ok (deactivatedRow api_key now,
      db.map (fun r => if r.id == key_id then deactivatedRow api_key now else r))

/-- Claim C10: a successful deactivation returns a record with is_active
false whose client-supplied fields all equal those of a stored record,
and the operation is idempotent: deactivating the same id again at any
later time succeeds (no error) and returns the identical record and
table. -/
theorem C10_deactivate_idempotent (db : List APIKeyRec) (key_id : Int)
    (t1 t2 : Int) (k1 : APIKeyRec) (db1 : List APIKeyRec) :
    deactivate_api_key key_id db t1 = Except.ok (k1, db1) →
      k1.is_active = false ∧
      (∃ r, r ∈ db ∧
        k1.key = r.key ∧ k1.name = r.name ∧ k1.description = r.description ∧
        k1.owner = r.owner ∧ k1.owner_email = r.owner_email ∧
        k1.rate_limit_per_minute = r.rate_limit_per_minute ∧
        k1.rate_limit_per_hour = r.rate_limit_per_hour ∧
        k1.rate_limit_per_day = r.rate_limit_per_day ∧
        k1.permissions = r.permissions ∧
        k1.created_at = r.created_at ∧
        k1.expires_at = r.expires_at ∧
        k1.last_used_at = r.last_used_at) ∧
      deactivate_api_key key_id db1 t2 = Except.ok (k1, db1) := by
  intro h
  rcases hq : scalar_one_or_none (db.filter (fun r => r.id == key_id)) with e | o
  · simp [deactivate_api_key, hq] at h
  · match o with
    | Option.none => simp [deactivate_api_key, hq] at h
    | some api_key =>
      have hred : deactivate_api_key key_id db t1 =
          Except.ok (deactivatedRow api_key t1,
            db.map (fun r => if r.id == key_id
              then deactivatedRow api_key t1 else r)) := by
        simp [deactivate_api_key, hq]
      rw [hred] at h
      simp only [Except.ok.injEq, Prod.mk.injEq] at h
      obtain ⟨hk1, hdb1⟩ := h
      obtain ⟨hmem, hpid, _huniq⟩ :=
        filter_eq_singleton_shape (scalar_one_or_none_eq_some hq)
      subst hk1
      subst hdb1
      refine ⟨rfl, ⟨api_key, hmem, rfl, rfl, rfl, rfl, rfl, rfl, rfl, rfl, rfl,
        rfl, rfl, rfl⟩, ?_⟩
      have hfilter : (db.map (fun r => if r.id == key_id
          then deactivatedRow api_key t1 else r)).filter
            (fun r => r.id == key_id) = [deactivatedRow api_key t1] := by
        rw [List.filter_map]
        have hcong : db.filter ((fun r => r.id == key_id) ∘
            (fun r => if r.id == key_id then deactivatedRow api_key t1 else r)) =
            db.filter (fun r => r.id == key_id) := by
          apply List.filter_congr
          intro a _
          by_cases hpa : (a.id == key_id) = true
          · simp [Function.comp, hpa, deactivatedRow, hpid]
          · simp [Function.comp, hpa]
        rw [hcong, scalar_one_or_none_eq_some hq]
        have hpe : api_key.id = key_id := by simpa using hpid
        simp [hpe]
      have hq2 : scalar_one_or_none
          ((db.map (fun r => if r.id == key_id
            then deactivatedRow api_key t1 else r)).filter
              (fun r => r.id == key_id)) =
          Except.ok (some (deactivatedRow api_key t1)) := by
        rw [hfilter]
        rfl
      have hD : deactivatedRow (deactivatedRow api_key t1) t2 =
          deactivatedRow api_key t1 :=
        deactivatedRow_of_inactive _ _ rfl
      have hred2 : deactivate_api_key key_id
          (db.map (fun r => if r.id == key_id
            then deactivatedRow api_key t1 else r)) t2 =
          Except.ok (deactivatedRow (deactivatedRow api_key t1) t2,
            (db.map (fun r => if r.id == key_id
              then deactivatedRow api_key t1 else r)).map
                (fun r => if r.id == key_id
                  then deactivatedRow (deactivatedRow api_key t1) t2 else r)) := by
        unfold deactivate_api_key
        rw [hq2]
      rw [hred2, hD]
      have hpt : ∀ a ∈ db.map (fun r => if r.id == key_id
          then deactivatedRow api_key t1 else r),
          (if a.id == key_id then deactivatedRow api_key t1 else a) = a := by
        intro a ha
        by_cases hpa : (a.id == key_id) = true
        · have haf : a ∈ (db.map (fun r => if r.id == key_id
              then deactivatedRow api_key t1 else r)).filter
                (fun r => r.id == key_id) := List.mem_filter.mpr ⟨ha, hpa⟩
          rw [hfilter] at haf
          have haK := List.mem_singleton.mp haf
          simp [hpa, haK]
        · simp [hpa]
      have hmapid : (db.map (fun r => if r.id == key_id
          then deactivatedRow api_key t1 else r)).map
            (fun r => if r.id == key_id then deactivatedRow api_key t1 else r) =
          db.map (fun r => if r.id == key_id
            then deactivatedRow api_key t1 else r) := by
        calc (db.map (fun r => if r.id == key_id
              then deactivatedRow api_key t1 else r)).map
                (fun r => if r.id == key_id then deactivatedRow api_key t1 else r)
            = (db.map (fun r => if r.id == key_id
              then deactivatedRow api_key t1 else r)).map (fun a => a) :=
              List.map_congr_left hpt
          _ = db.map (fun r => if r.id == key_id
              then deactivatedRow api_key t1 else r) := by simp
      rw [hmapid]

/-- Witness for C10 at a concrete one-key table with the key still
active: deactivation succeeds and the deactivated record is inactive. -/
theorem C10_deactivate_idempotent_witness :
    ({ id := 1, key := "sek-1", name := "acme", owner := "ops",
       is_active := false, updated_at := 5 } : APIKeyRec).is_active = false :=
  (C10_deactivate_idempotent
    [{ id := 1, key := "sek-1", name := "acme", owner := "ops" }] 1 5 9
    { id := 1, key := "sek-1", name := "acme", owner := "ops",
      is_active := false, updated_at := 5 }
    [{ id := 1, key := "sek-1", name := "acme", owner := "ops",
       is_active := false, updated_at := 5 }] rfl).1
